import Mathlib

/- Shallow embedding of src/nz_energy_dashboard.py.

   DataFrames are modelled column-orientedly: a `DF` is a list of
   (column name, cell list) pairs; row i of the table is the i-th entry of
   every column.  Python/pandas scalar cells are modelled by `Cell`:
   floats are exact rationals, `null` stands for NaN/NaT/None, `tstamp`
   for a parsed pandas timestamp (encoded as an integer date key), `bool`
   for Python booleans.  Library calls (pd.to_numeric, pd.to_datetime,
   groupby, pivot_table) are embedded by executable functions that follow
   the documented pandas behaviour on the value shapes this pipeline
   produces; simplifications are noted where they occur. -/

inductive Cell where
  | null
  | num (q : ℚ)
  | str (s : String)
  | tstamp (t : ℤ)
  | bool (b : Bool)
deriving DecidableEq

structure DF where
  cols : List (String × List Cell)
deriving DecidableEq

/-- Is `n` a prefix of the second list?  Building block for Python's
    substring test. -/
def prefAux : List Char → List Char → Bool
  | [], _ => true
  | _ :: _, [] => false
  | a :: as, b :: bs => a == b && prefAux as bs

/-- Does `n` occur as a contiguous sublist of the second list? -/
def subAux (n : List Char) : List Char → Bool
  | [] => n.isEmpty
  | b :: bs => prefAux n (b :: bs) || subAux n bs

/-- Python's `needle in hay` on strings. -/
def strHasSub (hay needle : String) : Bool := subAux needle.data hay.data

/-- ASCII lowercasing (`.lower()` in the source), built structurally so
    that it is kernel-computable. -/
def strLower (s : String) : String := String.mk (s.data.map Char.toLower)

/-- Structural split on a separator character (the source's
    `str.split`-style tokenization used by the parsing layer). -/
def splitChars (sep : Char) : List Char → List (List Char)
  | [] => [[]]
  | c :: cs =>
    match splitChars sep cs with
    | [] => if c == sep then [[], []] else [[c]]
    | h :: t => if c == sep then [] :: h :: t else (c :: h) :: t

def digitVal (c : Char) : Option ℕ :=
  if 48 ≤ c.toNat ∧ c.toNat ≤ 57 then some (c.toNat - 48) else none

def digitsAux (acc : ℕ) : List Char → Option ℕ
  | [] => some acc
  | c :: cs =>
    match digitVal c with
    | some d => digitsAux (acc * 10 + d) cs
    | none => none

/-- All-digit numeral reading: fails on an empty or non-numeric string. -/
def digitsToNat : List Char → Option ℕ
  | [] => none
  | c :: cs => digitsAux 0 (c :: cs)

def colNames (df : DF) : List String := df.cols.map (fun p => p.1)

/-- Python `df[name]`: the first column with the given name (empty when the
    name is absent; the pipeline only reads names it resolved). -/
def getColD (df : DF) (name : String) : List Cell :=
  ((df.cols.find? (fun p => p.1 == name)).map (fun p => p.2)).getD []

/-- Python `df.iloc[:, i]`: the column at position i. -/
def colAt (df : DF) (i : ℕ) : List Cell := (df.cols.getD i ("", [])).2

def hasCol (df : DF) (c : String) : Bool := (colNames df).contains c

/-- Python column assignment `df[name] = vals`: overwrite when the name
    exists, append a new column otherwise. -/
def setCol (df : DF) (name : String) (vals : List Cell) : DF :=
  if hasCol df name then
    ⟨df.cols.map (fun p => if p.1 == name then (p.1, vals) else p)⟩
  else ⟨df.cols ++ [(name, vals)]⟩

/-- Python `df[name] = df[name].apply(f)`-style columnwise rewrite, used for
    the in-place coercions of lines 63 and 66. -/
def applyToCol (df : DF) (name : String) (f : Cell → Cell) : DF :=
  ⟨df.cols.map (fun p => if p.1 == name then (p.1, p.2.map f) else p)⟩

/-- Numeric view of a cell as summed by pandas: numbers count, booleans
    count as 0/1, NaN and strings contribute nothing (skipna). -/
def cellQ (c : Cell) : ℚ :=
  match c with
  | Cell.num q => q
  | Cell.bool b => if b then 1 else 0
  | _ => 0

def sumQ (cells : List Cell) : ℚ := (cells.map cellQ).sum

/-- Decimal-number parser standing for the accepting core of
    `pd.to_numeric`: optional minus sign, digits, optional fractional part.
    Anything else (empty string, free text) fails; only the failure
    behaviour is relied on by the claims. -/
def parseNumChars (sign : ℚ) (cs : List Char) : Option ℚ :=
  match splitChars '.' cs with
  | [i] => (digitsToNat i).map (fun n => sign * (n : ℚ))
  | [i, f] =>
    match digitsToNat i, digitsToNat f with
    | some a, some b => some (sign * ((a : ℚ) + (b : ℚ) / (10 : ℚ) ^ f.length))
    | _, _ => none
  | _ => none

def parseNumString (s : String) : Option ℚ :=
  match s.data with
  | '-' :: cs => parseNumChars (-1) cs
  | cs => parseNumChars 1 cs

/-- One cell of `pd.to_numeric(col, errors='coerce')`: numbers pass through,
    parseable strings are converted, everything else becomes NaN (none). -/
def to_numeric_coerce (c : Cell) : Option ℚ :=
  match c with
  | Cell.num q => some q
  | Cell.bool b => some (if b then 1 else 0)
  | Cell.str s => parseNumString s
  | _ => none

/-- Line 66, `pd.to_numeric(df[gen_col], errors='coerce').fillna(0)` on one
    cell: a failed parse (NaN) is replaced by 0. -/
def coerceNumCell (c : Cell) : Cell := Cell.num ((to_numeric_coerce c).getD 0)

/-- ISO `YYYY-MM-DD` reading standing for the date-parsing core of
    `pd.to_datetime`; timestamps are encoded as the integer
    y*10000 + m*100 + d. -/
def parseDateISO (s : String) : Option ℤ :=
  match splitChars '-' s.data with
  | [y, m, d] =>
    match digitsToNat y, digitsToNat m, digitsToNat d with
    | some a, some b, some c => some ((a : ℤ) * 10000 + (b : ℤ) * 100 + (c : ℤ))
    | _, _, _ => none
  | _ => none

/-- Line 63, `pd.to_datetime(df[ts_col], errors='coerce')` on one cell:
    parseable date strings become timestamps, timestamps stay, everything
    else becomes NaT (`Cell.null`; numeric epoch inputs are simplified to
    NaT — no claim depends on them). -/
def to_datetime_cell (c : Cell) : Cell :=
  match c with
  | Cell.str s =>
    match parseDateISO s with
    | some t => Cell.tstamp t
    | none => Cell.null
  | Cell.tstamp t => Cell.tstamp t
  | _ => Cell.null

/-- Line 44 predicate: lowercased name contains "time", "date" or
    "trading". -/
def isTsMatch (c : String) : Bool :=
  strHasSub (strLower c) "time" || strHasSub (strLower c) "date" || strHasSub (strLower c) "trading"

/-- Line 44: `possible_ts_cols`. -/
def possible_ts_cols (df : DF) : List String := (colNames df).filter isTsMatch

/-- Line 49: `possible_ts_cols[0] if possible_ts_cols else None`. -/
def ts_col (df : DF) : Option String := (possible_ts_cols df).head?

/-- Line 46 predicate: lowercased name contains "fuel" (the "fuel_type" and
    "fueltype" alternatives of the source line are subsumed but kept). -/
def isFuelMatch (c : String) : Bool :=
  strHasSub (strLower c) "fuel" || strHasSub (strLower c) "fuel_type" || strHasSub (strLower c) "fueltype"

/-- Line 46: `possible_fuel_cols`. -/
def possible_fuel_cols (df : DF) : List String := (colNames df).filter isFuelMatch

/-- Line 50: `possible_fuel_cols[0] if possible_fuel_cols else None`. -/
def fuel_col (df : DF) : Option String := (possible_fuel_cols df).head?

/-- Line 45: `possible_gen_cols` — computed by the source but never
    consulted when picking the generation column. -/
def possible_gen_cols (df : DF) : List String :=
  (colNames df).filter
    (fun c => strHasSub (strLower c) "generation" || strLower c == "gen" || strHasSub (strLower c) "mw")

/-- Line 52 allow-list, in source order. -/
def GEN_EXACT : List String :=
  ["Generation_MWh", "Generation_kWh", "Generation", "GENERATION", "Generation_MW", "GEN_MW"]

/-- Numeric dtype test behind `select_dtypes(include='number')`: a column
    read from CSV has numeric dtype exactly when every cell is a number or
    NaN. -/
def isNumericCol (cells : List Cell) : Bool :=
  cells.all (fun c =>
    match c with
    | Cell.num _ => true
    | Cell.null => true
    | _ => false)

/-- Lines 56-59 fallback: the first numeric-dtype column. -/
def firstNumeric (df : DF) : Option String :=
  (df.cols.find? (fun p => isNumericCol p.2)).map (fun p => p.1)

/-- Lines 51-59: the generation column — the first allow-list name present
    in the table, otherwise the first numeric column. -/
def gen_col (df : DF) : Option String :=
  match GEN_EXACT.find? (hasCol df) with
  | some c => some c
  | none => firstNumeric df

/-- First-occurrence deduplication (pandas group keys). -/
def firstUniq (seen : List Cell) : List Cell → List Cell
  | [] => []
  | c :: cs => if seen.contains c then firstUniq seen cs else c :: firstUniq (c :: seen) cs

/-- Insertion into a list sorted by descending second component, for
    `sort_values(ascending=False)`; tie order is unspecified in the source
    (unstable quicksort) and fixed arbitrarily here. -/
def insertDesc (x : Cell × ℚ) : List (Cell × ℚ) → List (Cell × ℚ)
  | [] => [x]
  | y :: ys => if y.2 ≤ x.2 then x :: y :: ys else y :: insertDesc x ys

def sortDesc (l : List (Cell × ℚ)) : List (Cell × ℚ) := l.foldr insertDesc []

/-- Lines 69-70: `df.groupby(fuel_col)[gen_col].sum().reset_index()`
    followed by `sort_values(by=gen_col, ascending=False)`.  Null keys are
    dropped (groupby dropna); groupby's intermediate key sort is omitted
    because the value sort supersedes it (it could only influence tie
    order). -/
def groupSum (df : DF) (f g : String) : DF :=
  let fv := getColD df f
  let gv := getColD df g
  let rows := fv.zip gv
  let keys := firstUniq [] (fv.filter (fun c => !(c == Cell.null)))
  let pairs := keys.map (fun k =>
    (k, ((rows.filterMap (fun p => if p.1 == k then some p.2 else none)).map cellQ).sum))
  let sorted := sortDesc pairs
  ⟨[(f, sorted.map (fun p => p.1)), (g, sorted.map (fun p => Cell.num p.2))]⟩

/-- The dict returned at line 76. -/
structure RoleMeta where
  ts_col : Option String
  fuel_col : Option String
  gen_col : Option String
deriving DecidableEq

/-- Lines 42-76: `process_generation_df`.  Returns (agg, df, meta); the
    middle component is the caller's dataframe after the in-place column
    overwrites of lines 63 and 66. -/
def process_generation_df (df : DF) : DF × DF × RoleMeta :=
  let tsc := ts_col df
  let fc := fuel_col df
  let gc := gen_col df
  let df1 := match tsc with
    | some t => applyToCol df t to_datetime_cell
    | none => df
  let df2 := match gc with
    | some g => applyToCol df1 g coerceNumCell
    | none => df1
  let agg := match fc, gc with
    | some f, some g => groupSum df2 f g
    | _, _ =>
      ⟨[("FuelType", [Cell.str "unknown"]),
        ("Generation", [Cell.num (match gc with
          | some g => sumQ (getColD df2 g)
          | none => 0)])]⟩
  (agg, df2, ⟨tsc, fc, gc⟩)

/-- Line 79. -/
def RENEWABLE_KEYWORDS : List String := ["hydro", "geo", "wind", "solar", "biomass", "battery"]

/-- Lines 81-85: `is_renewable` — non-strings are False, otherwise
    case-insensitive substring containment against the keyword list. -/
def is_renewable (fuel_name : Cell) : Bool :=
  match fuel_name with
  | Cell.str s => RENEWABLE_KEYWORDS.any (fun k => strHasSub (strLower s) k)
  | _ => false

/-- Line 88 right-hand side: the boolean flags column. -/
def renewFlags (agg : DF) : List Cell := (colAt agg 0).map (fun c => Cell.bool (is_renewable c))

/-- Line 88: `agg_df['is_renewable'] = agg_df.iloc[:,0].apply(is_renewable)`
    — the caller's aggregate after the in-place column assignment. -/
def aggWithFlags (agg : DF) : DF := setCol agg "is_renewable" (renewFlags agg)

/-- Line 89: `total = agg_df.iloc[:,1].sum()` (read from the mutated
    frame). -/
def aggTotal (agg : DF) : ℚ := sumQ (colAt (aggWithFlags agg) 1)

/-- Line 90: the second column summed over the rows whose `is_renewable`
    flag is set. -/
def aggRenew (agg : DF) : ℚ :=
  (((colAt (aggWithFlags agg) 1).zip (getColD (aggWithFlags agg) "is_renewable")).filterMap
    (fun p => if p.2 == Cell.bool true then some (cellQ p.1) else none)).sum

/-- Line 91: `share = (renew/total)*100 if total > 0 else 0`. -/
def shareRaw (agg : DF) : ℚ :=
  if 0 < aggTotal agg then aggRenew agg / aggTotal agg * 100 else 0

/-- Round half to even on an exact rational: Python's `round` policy
    (binary floating point is modelled by exact rationals throughout). -/
def bround (q : ℚ) : ℤ :=
  if q - ⌊q⌋ < 1 / 2 then ⌊q⌋
  else if 1 / 2 < q - ⌊q⌋ then ⌊q⌋ + 1
  else if ⌊q⌋ % 2 = 0 then ⌊q⌋ else ⌊q⌋ + 1

/-- Python `round(x, 2)`. -/
def round2 (x : ℚ) : ℚ := ((bround (x * 100) : ℤ) : ℚ) / 100

/-- Lines 87-92: `compute_renewable_share`.  First component: the returned
    share; second: the caller's aggregate after the line-88 mutation. -/
def compute_renewable_share (agg : DF) : ℚ × DF := (round2 (shareRaw agg), aggWithFlags agg)

/-- Timestamp key of a cell; non-timestamps are NaT and their rows are
    dropped from the pivot index (pivot_table dropna). -/
def tsKey (c : Cell) : Option ℤ :=
  match c with
  | Cell.tstamp t => some t
  | _ => none

/-- Line 142 input: (timestamp key, fuel, quantity) per surviving row of
    `pivot_table(index=ts, columns=fuel, values=gen, aggfunc='sum',
    fill_value=0)`; rows with NaT index or null fuel are dropped. -/
def pivot_rows (df : DF) (ts f g : String) : List (ℤ × Cell × ℚ) :=
  ((getColD df ts).zip ((getColD df f).zip (getColD df g))).filterMap
    (fun p =>
      match tsKey p.1 with
      | some t => if p.2.1 == Cell.null then none else some (t, p.2.1, cellQ p.2.2)
      | none => none)

def insertAscInt (x : ℤ) : List ℤ → List ℤ
  | [] => [x]
  | y :: ys => if x ≤ y then x :: y :: ys else y :: insertAscInt x ys

def firstUniqInt (seen : List ℤ) : List ℤ → List ℤ
  | [] => []
  | c :: cs => if seen.contains c then firstUniqInt seen cs else c :: firstUniqInt (c :: seen) cs

/-- Pivot index: distinct timestamps sorted ascending. -/
def pivot_index (rows : List (ℤ × Cell × ℚ)) : List ℤ :=
  (firstUniqInt [] (rows.map (fun r => r.1))).foldr insertAscInt []

/-- Pivot columns: the distinct fuel values (pandas sorts them; the order
    never matters below because only filters and sums are applied). -/
def pivot_cats (rows : List (ℤ × Cell × ℚ)) : List Cell :=
  firstUniq [] (rows.map (fun r => r.2.1))

/-- One pivot cell: summed quantity for (timestamp, fuel), `fill_value=0`
    when no row matches. -/
def pivot_cell (rows : List (ℤ × Cell × ℚ)) (t : ℤ) (f : Cell) : ℚ :=
  (rows.filterMap (fun r => if r.1 == t && r.2.1 == f then some r.2.2 else none)).sum

/-- Line 143: `pivot['total'] = pivot.sum(axis=1)`. -/
def pivot_total (rows : List (ℤ × Cell × ℚ)) (cats : List Cell) (t : ℤ) : ℚ :=
  (cats.map (pivot_cell rows t)).sum

/-- Lines 145-148: the `renew_share_pct` series.  pandas float division is
    partial here: at a timestamp whose total is 0 the code computes 0/0,
    i.e. NaN, modelled as `none`; the series is only built when at least
    one renewable fuel column exists (line 146), otherwise no column is
    computed (`[]`).  The 'total' helper column added at line 143 never
    matches the renewable keywords, so filtering the fuel categories is
    faithful to line 145. -/
def pivot_renew_share (df : DF) (ts f g : String) : List (ℤ × Option ℚ) :=
  let rows := pivot_rows df ts f g
  let cats := pivot_cats rows
  let renewCats := cats.filter is_renewable
  if renewCats.isEmpty then []
  else
    (pivot_index rows).map (fun t =>
      let tot := pivot_total rows cats t
      let rs := (renewCats.map (pivot_cell rows t)).sum
      (t, if tot = 0 then none else some (rs / tot * 100)))

/-- Modelled from the spec: arithmetic mean of a window. -/
def meanQ (l : List ℚ) : ℚ := l.sum / (l.length : ℚ)

/-- Modelled from the spec: the smoothed renewable share — a rolling
    arithmetic mean over a trailing window of 3 points in ascending
    timestamp order with min-periods 1.  The smoothing step belongs to the
    repository's other dashboard variants and is absent from src/. -/
def rollingMean3 (xs : List ℚ) : List ℚ :=
  (List.range xs.length).map (fun i => meanQ ((xs.take (i + 1)).drop (i + 1 - 3)))

/-- Modelled from the spec: `totalPages = ceil(length / pageSize)`, minimum
    1 even for an empty sequence.  The pagination windower belongs to the
    repository's other dashboard variants and is absent from src/. -/
def totalPages (len size : ℕ) : ℕ := max 1 ((len + size - 1) / size)

/-- Modelled from the spec: 1-based page slice
    `[(pageIndex-1)*pageSize, min(pageIndex*pageSize, length))`. -/
def pageSlice {α : Type} (xs : List α) (size idx : ℕ) : List α :=
  (xs.drop ((idx - 1) * size)).take size

inductive Category where
  | renewable
  | nonRenewable
  | other
deriving DecidableEq

def SPEC_RENEWABLE_TOKENS : List String :=
  ["hydro", "wind", "solar", "geothermal", "biomass", "battery"]

def SPEC_NONRENEWABLE_TOKENS : List String := ["gas", "coal", "diesel", "co-generation"]

/-- Follows the words of claim C4 / spec 4.3, for comparison with the
    source's `is_renewable`: case-insensitive substring match against the
    renewable tokens, then normalized exact match against the non-renewable
    tokens, else Other. -/
def specClassify (fuel : Option String) : Category :=
  match fuel with
  | none => Category.other
  | some s =>
    if SPEC_RENEWABLE_TOKENS.any (fun k => strHasSub (strLower s) k) then Category.renewable
    else if SPEC_NONRENEWABLE_TOKENS.contains (strLower s) then Category.nonRenewable
    else Category.other

/-- Follows the words of claim C2, for comparison with the source's
    `gen_col`: exact allow-list, then substring "generation", then
    substring "mw", then first numeric column. -/
def gen_col_spec (df : DF) : Option String :=
  match GEN_EXACT.find? (hasCol df) with
  | some c => some c
  | none =>
    match (colNames df).find? (fun c => strHasSub (strLower c) "generation") with
    | some c => some c
    | none =>
      match (colNames df).find? (fun c => strHasSub (strLower c) "mw") with
      | some c => some c
      | none => firstNumeric df

/-- One-row table whose generation cell is malformed text: the coerced
    quantity is 0, so the single pivot timestamp has total 0. -/
def df0 : DF :=
  ⟨[("TradingDate", [Cell.str "2024-01-01"]),
    ("Fuel", [Cell.str "Wind"]),
    ("Generation", [Cell.str "oops"])]⟩

/-- Table with no fuel-role column. -/
def dfNoFuel : DF :=
  ⟨[("TradingDate", [Cell.str "2024-01-01"]), ("Generation", [Cell.num 5])]⟩

/-- Table with a substring-only generation candidate and an unrelated first
    numeric column. -/
def exDf2 : DF :=
  ⟨[("TradingDate", [Cell.str "2024-01-01"]),
    ("MyGeneration", [Cell.str "x"]),
    ("Period", [Cell.num 1])]⟩

/-- Aggregate with a single non-renewable row. -/
def agg0 : DF := ⟨[("FuelType", [Cell.str "Gas"]), ("Generation", [Cell.num 5])]⟩

/-- Aggregate whose generation sum is negative. -/
def negAgg : DF := ⟨[("FuelType", [Cell.str "Gas"]), ("Generation", [Cell.num (-5)])]⟩

/-- Table for the timestamp-resolution witness: the leftmost matching
    column is the second one. -/
def df8 : DF :=
  ⟨[("Fuel", [Cell.str "Hydro"]),
    ("TradingDate", [Cell.str "2024-01-01"]),
    ("PublishedTime", [Cell.str "x"])]⟩

/-- Table whose only allow-list generation name is the kilowatt-hours
    one. -/
def dfKwh : DF :=
  ⟨[("Generation_kWh", [Cell.num 3]), ("Fuel", [Cell.str "Hydro"])]⟩

theorem prefAux_iff : ∀ (n h : List Char), prefAux n h = true ↔ ∃ r, h = n ++ r
  | [], h => by simp [prefAux]
  | a :: as, [] => by simp [prefAux]
  | a :: as, b :: bs => by
    have ih := prefAux_iff as bs
    simp only [prefAux, Bool.and_eq_true, beq_iff_eq, ih, List.cons_append, List.cons.injEq]
    exact ⟨fun ⟨hab, r, hr⟩ => ⟨r, hab.symm, hr⟩, fun ⟨r, hab, hr⟩ => ⟨hab.symm, r, hr⟩⟩

theorem subAux_iff (n : List Char) : ∀ h : List Char, subAux n h = true ↔ ∃ l r, h = l ++ n ++ r
  | [] => by
    simp only [subAux, List.isEmpty_iff]
    constructor
    · rintro rfl
      exact ⟨[], [], rfl⟩
    · rintro ⟨l, r, hr⟩
      rcases List.append_eq_nil.mp hr.symm with ⟨h1, h2⟩
      exact (List.append_eq_nil.mp h1).2
  | b :: bs => by
    have ih := subAux_iff n bs
    rw [subAux]
    simp only [Bool.or_eq_true, prefAux_iff, ih]
    constructor
    · rintro (⟨r, hr⟩ | ⟨l, r, hr⟩)
      · exact ⟨[], r, by simpa using hr⟩
      · exact ⟨b :: l, r, by simp [hr]⟩
    · rintro ⟨l, r, hr⟩
      rcases l with _ | ⟨c, l⟩
      · exact Or.inl ⟨r, by simpa using hr⟩
      · right
        have hbc : b = c ∧ bs = l ++ n ++ r := by simpa using hr
        exact ⟨l, r, hbc.2⟩

theorem strHasSub_iff (hay needle : String) :
    strHasSub hay needle = true ↔ ∃ l r, hay.data = l ++ needle.data ++ r :=
  subAux_iff needle.data hay.data

theorem head?_filter_eq_find? {α : Type} (p : α → Bool) (l : List α) :
    (l.filter p).head? = l.find? p := by
  induction l with
  | nil => rfl
  | cons a t ih =>
    by_cases hpa : p a
    · rw [List.filter_cons_of_pos hpa, List.find?_cons_of_pos t hpa]
      rfl
    · rw [List.filter_cons_of_neg hpa, List.find?_cons_of_neg t hpa]
      exact ih

theorem find_leftmost {α : Type} (p : α → Bool) (d : α) (l : List α) :
    ∀ i : ℕ, i < l.length → p (l.getD i d) = true →
      (∀ j, j < i → p (l.getD j d) = false) → l.find? p = some (l.getD i d) := by
  induction l with
  | nil =>
    intro i hi
    simp at hi
  | cons a t ih =>
    intro i hi hp hprev
    cases i with
    | zero =>
      rw [List.getD_cons_zero] at hp ⊢
      exact List.find?_cons_of_pos t hp
    | succ k =>
      have ha : p a = false := by
        have h0 := hprev 0 (Nat.succ_pos k)
        rwa [List.getD_cons_zero] at h0
      rw [List.getD_cons_succ]
      rw [List.find?_cons_of_neg t (by simp [ha])]
      apply ih k (by simpa using hi)
      · rwa [List.getD_cons_succ] at hp
      · intro j hj
        have hx := hprev (j + 1) (Nat.succ_lt_succ hj)
        rwa [List.getD_cons_succ] at hx

theorem map_fst_applyCols (name : String) (f : Cell → Cell) :
    ∀ cols : List (String × List Cell),
      (cols.map (fun p => if p.1 == name then (p.1, p.2.map f) else p)).map (fun p => p.1) =
        cols.map (fun p => p.1)
  | [] => rfl
  | a :: t => by
    have ih := map_fst_applyCols name f t
    rw [List.map_cons, List.map_cons, List.map_cons, ih]
    by_cases h1 : a.1 == name
    · rw [if_pos h1]
    · rw [if_neg h1]

theorem colNames_applyToCol (df : DF) (name : String) (f : Cell → Cell) :
    colNames (applyToCol df name f) = colNames df :=
  map_fst_applyCols name f df.cols

theorem getColD_applyToCol_ne (df : DF) (t name : String) (f : Cell → Cell) (h : name ≠ t) :
    getColD (applyToCol df t f) name = getColD df name := by
  rw [getColD, applyToCol, getColD]
  simp only [List.find?_map]
  have hp : ((fun p : String × List Cell => p.1 == name) ∘
      (fun p : String × List Cell => if p.1 == t then (p.1, p.2.map f) else p)) =
      (fun p : String × List Cell => p.1 == name) := by
    funext p
    by_cases hp1 : p.1 == t <;> simp [Function.comp, hp1]
  rw [hp]
  cases hf : df.cols.find? (fun p => p.1 == name) with
  | none => rfl
  | some p =>
    have hpn : p.1 = name := by simpa using List.find?_some hf
    have hpt : p.1 ≠ t := by
      rw [hpn]
      exact h
    simp [hpt]

theorem getColD_applyToCol_len (df : DF) (t name : String) (f : Cell → Cell) :
    (getColD (applyToCol df t f) name).length = (getColD df name).length := by
  rw [getColD, applyToCol, getColD]
  simp only [List.find?_map]
  have hp : ((fun p : String × List Cell => p.1 == name) ∘
      (fun p : String × List Cell => if p.1 == t then (p.1, p.2.map f) else p)) =
      (fun p : String × List Cell => p.1 == name) := by
    funext p
    by_cases hp1 : p.1 == t <;> simp [Function.comp, hp1]
  rw [hp]
  cases hf : df.cols.find? (fun p => p.1 == name) with
  | none => rfl
  | some p => by_cases hpt : p.1 = t <;> simp [hpt]

theorem bround_close (q : ℚ) : |q - ((bround q : ℤ) : ℚ)| ≤ 1 / 2 := by
  have h0 : ((⌊q⌋ : ℤ) : ℚ) ≤ q := Int.floor_le q
  have h1 : q < ⌊q⌋ + 1 := Int.lt_floor_add_one q
  rw [bround]
  split_ifs with ha hb hc
  · rw [abs_le]
    constructor <;> linarith
  · rw [abs_le]
    push_cast
    constructor <;> linarith
  · rw [abs_le]
    constructor <;> linarith
  · rw [abs_le]
    push_cast
    constructor <;> linarith

theorem round2_close (x : ℚ) : |round2 x - x| ≤ 1 / 200 := by
  have h := bround_close (x * 100)
  rw [round2]
  have e : ((bround (x * 100) : ℤ) : ℚ) / 100 - x = -((x * 100 - ((bround (x * 100) : ℤ) : ℚ)) / 100) := by
    ring
  rw [e, abs_neg, abs_div, abs_of_pos (by norm_num : (0 : ℚ) < 100)]
  linarith

theorem eq_of_len3 (l : List ℚ) (h : l.length = 3) :
    l = [l.getD 0 0, l.getD 1 0, l.getD 2 0] := by
  rcases l with _ | ⟨a, _ | ⟨b, _ | ⟨c, _ | ⟨d, t⟩⟩⟩⟩ <;> simp_all

theorem getD_drop_take (xs : List ℚ) (i j : ℕ) (h2 : 2 ≤ i) (h : i < xs.length) (hj : j < 3) :
    ((xs.take (i + 1)).drop (i - 2)).getD j 0 = xs.getD (i - 2 + j) 0 := by
  have hlt : (xs.take (i + 1)).length = i + 1 := by
    rw [List.length_take]
    omega
  have hwl : ((xs.take (i + 1)).drop (i - 2)).length = 3 := by
    rw [List.length_drop, hlt]
    omega
  have hj2 : j < ((xs.take (i + 1)).drop (i - 2)).length := by omega
  rw [List.getD_eq_getElem _ _ hj2]
  simp only [List.getElem_drop, List.getElem_take]
  rw [List.getD_eq_getElem _ _ (show i - 2 + j < xs.length by omega)]

/-- C8: the timestamp role resolves to the leftmost column whose lowercased
    name contains "date", "time" or "trading" (ties are broken by column
    declaration order, not pattern order), and resolution is a
    deterministic function of the column-name list alone, hence idempotent
    across calls. -/
theorem C8_timestamp_resolution (df : DF) (i : ℕ) (hi : i < (colNames df).length)
    (hm : isTsMatch ((colNames df).getD i "") = true)
    (hp : ∀ j, j < i → isTsMatch ((colNames df).getD j "") = false) :
    ts_col df = some ((colNames df).getD i "") ∧
    ∀ df' : DF, colNames df' = colNames df → ts_col df' = ts_col df := by
  constructor
  · rw [ts_col, possible_ts_cols, head?_filter_eq_find?]
    exact find_leftmost isTsMatch "" (colNames df) i hi hm hp
  · intro df' hn
    rw [ts_col, ts_col, possible_ts_cols, possible_ts_cols, hn]

/-- C8 witness: on a table with columns Fuel, TradingDate, PublishedTime
    the leftmost matching column (the second) is picked. -/
theorem C8_timestamp_resolution_witness :
    (1 < (colNames df8).length ∧ isTsMatch ((colNames df8).getD 1 "") = true ∧
      (∀ j, j < 1 → isTsMatch ((colNames df8).getD j "") = false)) ∧
    ts_col df8 = some "TradingDate" :=
  ⟨⟨by decide, by decide, by decide⟩,
    (C8_timestamp_resolution df8 1 (by decide) (by decide) (by decide)).1⟩

/-- C2 counterexample: with columns TradingDate, MyGeneration (text) and
    Period (numeric), the claimed resolution order would pick the substring
    match "MyGeneration", but the source never consults the substring
    patterns and falls back to the first numeric column "Period". -/
theorem C2_counterexample :
    gen_col exDf2 = some "Period" ∧ gen_col_spec exDf2 = some "MyGeneration" ∧
    gen_col exDf2 ≠ gen_col_spec exDf2 := by
  decide

/-- C2 (amended): the generation column is resolved by the exact allow-list
    Generation_MWh, Generation_kWh, Generation, GENERATION, Generation_MW,
    GEN_MW in fixed priority order and, when no allow-list name is present,
    directly by the first numeric-typed column — the substring stage is
    never used. -/
theorem C2_generation_resolution (df : DF) :
    (∀ k, k < GEN_EXACT.length → hasCol df (GEN_EXACT.getD k "") = true →
      (∀ j, j < k → hasCol df (GEN_EXACT.getD j "") = false) →
      gen_col df = some (GEN_EXACT.getD k "")) ∧
    ((∀ c ∈ GEN_EXACT, hasCol df c = false) →
      ∀ i, i < df.cols.length → isNumericCol (colAt df i) = true →
      (∀ j, j < i → isNumericCol (colAt df j) = false) →
      gen_col df = some ((df.cols.getD i ("", [])).1)) := by
  constructor
  · intro k hk hm hp
    rw [gen_col, find_leftmost (hasCol df) "" GEN_EXACT k hk hm hp]
  · intro hnone i hi hnum hp
    have h1 : GEN_EXACT.find? (hasCol df) = none := by
      rw [List.find?_eq_none]
      intro x hx
      simp [hnone x hx]
    rw [gen_col, h1, firstNumeric,
      find_leftmost (fun p => isNumericCol p.2) ("", []) df.cols i hi hnum hp]
    rfl

/-- C2 witness: a table whose only allow-list name is Generation_kWh
    resolves to it (the megawatt-hours name, tried first, is absent). -/
theorem C2_generation_resolution_witness :
    (1 < GEN_EXACT.length ∧ hasCol dfKwh (GEN_EXACT.getD 1 "") = true ∧
      (∀ j, j < 1 → hasCol dfKwh (GEN_EXACT.getD j "") = false)) ∧
    gen_col dfKwh = some "Generation_kWh" :=
  ⟨⟨by decide, by decide, by decide⟩,
    (C2_generation_resolution dfKwh).1 1 (by decide) (by decide) (by decide)⟩

unseal Rat.add Rat.mul Rat.inv Rat.sub in
/-- C3 counterexample: dfNoFuel has no fuel-role column, yet the pipeline
    produces a substitute aggregate (FuelType "unknown") instead of
    reporting a fatal error and producing no aggregate. -/
theorem C3_counterexample :
    fuel_col dfNoFuel = none ∧
    (process_generation_df dfNoFuel).1 =
      ⟨[("FuelType", [Cell.str "unknown"]), ("Generation", [Cell.num 5])]⟩ := by
  decide

/-- C3 (amended): when the fuel or generation role fails to resolve the
    pipeline does not abort: it emits a non-empty one-row substitute
    aggregate with columns FuelType/Generation and fuel value "unknown",
    and the returned role map records the unresolved roles (a failed
    timestamp role is likewise only recorded, not fatal). -/
theorem C3_unresolved_roles (df : DF) (h : fuel_col df = none ∨ gen_col df = none) :
    colNames (process_generation_df df).1 = ["FuelType", "Generation"] ∧
    getColD (process_generation_df df).1 "FuelType" = [Cell.str "unknown"] ∧
    (process_generation_df df).2.2.fuel_col = fuel_col df ∧
    (process_generation_df df).2.2.gen_col = gen_col df ∧
    (process_generation_df df).1.cols ≠ [] := by
  rcases h with h | h
  · cases hg : gen_col df <;>
      simp [process_generation_df, h, hg, colNames, getColD]
  · cases hf : fuel_col df <;>
      simp [process_generation_df, h, hf, colNames, getColD]

/-- C3 witness at the fuel-less table. -/
theorem C3_unresolved_roles_witness :
    (fuel_col dfNoFuel = none ∨ gen_col dfNoFuel = none) ∧
    (colNames (process_generation_df dfNoFuel).1 = ["FuelType", "Generation"] ∧
      getColD (process_generation_df dfNoFuel).1 "FuelType" = [Cell.str "unknown"] ∧
      (process_generation_df dfNoFuel).2.2.fuel_col = fuel_col dfNoFuel ∧
      (process_generation_df dfNoFuel).2.2.gen_col = gen_col dfNoFuel ∧
      (process_generation_df dfNoFuel).1.cols ≠ []) :=
  ⟨Or.inl (by decide), C3_unresolved_roles dfNoFuel (Or.inl (by decide))⟩

/-- C4 counterexample: the source keyword is "geo", not "geothermal", so
    the fuel name "geo" is classified renewable by the code while the
    claimed rule (tokens hydro, wind, solar, geothermal, biomass, battery,
    then an explicit non-renewable set, else Other) classifies it Other. -/
theorem C4_counterexample :
    is_renewable (Cell.str "geo") = true ∧ specClassify (some "geo") = Category.other := by
  decide

/-- C4 (amended): classification in the code is the binary predicate
    is_renewable: case-insensitive substring containment against the
    keyword list hydro, geo, wind, solar, biomass, battery; any match is
    renewable and every other value — null, the empty string, "GAS" —
    is simply not renewable; there is no explicit non-renewable keyword
    set and no separate Other category. -/
theorem C4_classifier (s : String) :
    (is_renewable (Cell.str s) = true ↔
      ∃ k ∈ RENEWABLE_KEYWORDS, ∃ l r : List Char, (strLower s).data = l ++ k.data ++ r) ∧
    is_renewable Cell.null = false ∧
    is_renewable (Cell.str "Hydro-North") = true ∧
    is_renewable (Cell.str "Battery_2") = true ∧
    is_renewable (Cell.str "GAS") = false ∧
    is_renewable (Cell.str "") = false := by
  refine ⟨?_, by decide, by decide, by decide, by decide, by decide⟩
  simp only [is_renewable, List.any_eq_true]
  constructor
  · rintro ⟨k, hk, hsub⟩
    exact ⟨k, hk, (strHasSub_iff _ _).mp hsub⟩
  · rintro ⟨k, hk, hlr⟩
    exact ⟨k, hk, (strHasSub_iff _ _).mpr hlr⟩

/-- C5: a quantity cell that fails numeric parsing coerces to exactly 0;
    the coercion always yields a number (never null), and applying it to a
    column preserves all column names and every column's row count, so no
    row is dropped. -/
theorem C5_quantity_coercion (c : Cell) (df : DF) (g : String)
    (h : to_numeric_coerce c = none) :
    coerceNumCell c = Cell.num 0 ∧
    (∀ d : Cell, ∃ q : ℚ, coerceNumCell d = Cell.num q) ∧
    colNames (applyToCol df g coerceNumCell) = colNames df ∧
    ∀ n : String,
      (getColD (applyToCol df g coerceNumCell) n).length = (getColD df n).length := by
  refine ⟨?_, fun d => ⟨(to_numeric_coerce d).getD 0, rfl⟩, colNames_applyToCol df g _, ?_⟩
  · rw [coerceNumCell, h]
    rfl
  · intro n
    exact getColD_applyToCol_len df g n _

/-- C5 witness: non-numeric text coerces to 0. -/
theorem C5_quantity_coercion_witness :
    to_numeric_coerce (Cell.str "abc") = none ∧ coerceNumCell (Cell.str "abc") = Cell.num 0 :=
  ⟨by decide, (C5_quantity_coercion (Cell.str "abc") df0 "Generation" (by decide)).1⟩

/-- C6: the smoothed series is a trailing 3-point rolling arithmetic mean
    with min-periods 1 over the ascending-timestamp share series: index 0
    equals the raw value, index 1 the mean of the first two raw values,
    index i ≥ 2 the mean of raw[i-2..i]; the output has the input's length,
    so there are no leading undefined entries. -/
theorem C6_rolling_mean (xs : List ℚ) (i : ℕ) (h : i < xs.length) :
    (rollingMean3 xs).length = xs.length ∧
    (rollingMean3 xs).getD i 0 =
      (if i = 0 then xs.getD 0 0
       else if i = 1 then (xs.getD 0 0 + xs.getD 1 0) / 2
       else (xs.getD (i - 2) 0 + xs.getD (i - 1) 0 + xs.getD i 0) / 3) := by
  have hlen : (rollingMean3 xs).length = xs.length := by
    simp [rollingMean3]
  refine ⟨hlen, ?_⟩
  have hi2 : i < (rollingMean3 xs).length := by omega
  have hmain : (rollingMean3 xs).getD i 0 = meanQ ((xs.take (i + 1)).drop (i + 1 - 3)) := by
    rw [List.getD_eq_getElem _ _ hi2]
    simp [rollingMean3]
  rw [hmain]
  by_cases h0 : i = 0
  · subst h0
    rw [if_pos rfl]
    rcases xs with _ | ⟨a, t⟩
    · simp at h
    · have hw : (((a :: t).take (0 + 1)).drop (0 + 1 - 3)) = [a] := rfl
      rw [hw, meanQ]
      norm_num
  · rw [if_neg h0]
    by_cases h1 : i = 1
    · subst h1
      rw [if_pos rfl]
      rcases xs with _ | ⟨a, _ | ⟨b, t⟩⟩
      · simp at h
      · simp at h
      · have hw : (((a :: b :: t).take (1 + 1)).drop (1 + 1 - 3)) = [a, b] := rfl
        rw [hw, meanQ]
        norm_num
    · rw [if_neg h1]
      have h2 : 2 ≤ i := by omega
      have hwl : ((xs.take (i + 1)).drop (i - 2)).length = 3 := by
        rw [List.length_drop, List.length_take]
        omega
      have h3 : i + 1 - 3 = i - 2 := by omega
      have hw : (xs.take (i + 1)).drop (i + 1 - 3) =
          [xs.getD (i - 2) 0, xs.getD (i - 1) 0, xs.getD i 0] := by
        rw [h3, eq_of_len3 _ hwl,
          getD_drop_take xs i 0 h2 h (by omega),
          getD_drop_take xs i 1 h2 h (by omega),
          getD_drop_take xs i 2 h2 h (by omega)]
        have e0 : i - 2 + 0 = i - 2 := by omega
        have e1 : i - 2 + 1 = i - 1 := by omega
        have e2 : i - 2 + 2 = i := by omega
        rw [e0, e1, e2]
      rw [hw, meanQ]
      have hs3 : ([xs.getD (i - 2) 0, xs.getD (i - 1) 0, xs.getD i 0] : List ℚ).sum =
          xs.getD (i - 2) 0 + xs.getD (i - 1) 0 + xs.getD i 0 := by
        simp [List.sum_cons]
        ring
      rw [hs3]
      norm_num

/-- C6 witness on the series 1, 2, 4: the smoothed value at index 2 is the
    trailing 3-point mean. -/
theorem C6_rolling_mean_witness :
    (2 : ℕ) < ([1, 2, 4] : List ℚ).length ∧
    ((rollingMean3 [1, 2, 4]).length = ([1, 2, 4] : List ℚ).length ∧
      (rollingMean3 [1, 2, 4]).getD 2 0 =
        (if (2 : ℕ) = 0 then ([1, 2, 4] : List ℚ).getD 0 0
         else if (2 : ℕ) = 1 then
           (([1, 2, 4] : List ℚ).getD 0 0 + ([1, 2, 4] : List ℚ).getD 1 0) / 2
         else (([1, 2, 4] : List ℚ).getD (2 - 2) 0 + ([1, 2, 4] : List ℚ).getD (2 - 1) 0 +
           ([1, 2, 4] : List ℚ).getD 2 0) / 3)) :=
  ⟨by decide, C6_rolling_mean [1, 2, 4] 2 (by decide)⟩

unseal Rat.add Rat.mul Rat.inv Rat.sub in
/-- C7 counterexample: process_generation_df overwrites the caller's
    timestamp and generation columns in place (df0's Generation cell "oops"
    comes back numeric), and compute_renewable_share adds an is_renewable
    column to the caller's aggregate — the inputs are not left unchanged. -/
theorem C7_counterexample :
    (process_generation_df df0).2.1 ≠ df0 ∧ (compute_renewable_share agg0).2 ≠ agg0 := by
  decide

/-- C7 (amended): both core functions are deterministic but mutate their
    input: process_generation_df rewrites the resolved timestamp and
    generation columns in place and leaves every other column and all
    column names unchanged, while compute_renewable_share returns the
    caller's aggregate extended in place with one new is_renewable
    column. -/
theorem C7_mutation_frame (df : DF) (name : String)
    (h1 : ts_col df ≠ some name) (h2 : gen_col df ≠ some name) :
    getColD (process_generation_df df).2.1 name = getColD df name ∧
    colNames (process_generation_df df).2.1 = colNames df ∧
    ∀ agg : DF, hasCol agg "is_renewable" = false →
      colNames (compute_renewable_share agg).2 = colNames agg ++ ["is_renewable"] := by
  refine ⟨?_, ?_, ?_⟩
  · cases hts : ts_col df with
    | none =>
      cases hg : gen_col df with
      | none => simp [process_generation_df, hts, hg]
      | some g =>
        have hng : name ≠ g := by
          intro e
          subst e
          exact h2 hg
        simp [process_generation_df, hts, hg, getColD_applyToCol_ne df g name _ hng]
    | some t =>
      have hnt : name ≠ t := by
        intro e
        subst e
        exact h1 hts
      cases hg : gen_col df with
      | none => simp [process_generation_df, hts, hg, getColD_applyToCol_ne df t name _ hnt]
      | some g =>
        have hng : name ≠ g := by
          intro e
          subst e
          exact h2 hg
        simp [process_generation_df, hts, hg,
          getColD_applyToCol_ne (applyToCol df t to_datetime_cell) g name _ hng,
          getColD_applyToCol_ne df t name _ hnt]
  · cases hts : ts_col df with
    | none =>
      cases hg : gen_col df with
      | none => simp [process_generation_df, hts, hg]
      | some g => simp [process_generation_df, hts, hg, colNames_applyToCol]
    | some t =>
      cases hg : gen_col df with
      | none => simp [process_generation_df, hts, hg, colNames_applyToCol]
      | some g => simp [process_generation_df, hts, hg, colNames_applyToCol]
  · intro agg hnew
    have hnot : ¬ (hasCol agg "is_renewable" = true) := by simp [hnew]
    rw [compute_renewable_share]
    show colNames (aggWithFlags agg) = colNames agg ++ ["is_renewable"]
    rw [aggWithFlags, setCol, if_neg hnot, colNames, colNames, List.map_append]
    rfl

/-- C7 witness: on df0, the Fuel column (neither the resolved timestamp nor
    the resolved generation column) is untouched. -/
theorem C7_mutation_frame_witness :
    (ts_col df0 ≠ some "Fuel" ∧ gen_col df0 ≠ some "Fuel") ∧
    getColD (process_generation_df df0).2.1 "Fuel" = getColD df0 "Fuel" :=
  ⟨⟨by decide, by decide⟩, (C7_mutation_frame df0 "Fuel" (by decide) (by decide)).1⟩

/-- C9: totalPages is the least page count that is at least 1 (even for an
    empty sequence) and whose pages cover the whole sequence — i.e.
    ceil(length / pageSize) clamped below by 1 — and page idx (1-based) is
    exactly the slice of the sequence from (idx-1)*pageSize up to
    min(idx*pageSize, length). -/
theorem C9_pagination {α : Type} (xs : List α) (size idx : ℕ) (hs : 0 < size)
    (hidx : 1 ≤ idx) :
    (1 ≤ totalPages xs.length size ∧
      xs.length ≤ totalPages xs.length size * size ∧
      ∀ p, 1 ≤ p → xs.length ≤ p * size → totalPages xs.length size ≤ p) ∧
    pageSlice xs size idx = (xs.take (idx * size)).drop ((idx - 1) * size) := by
  constructor
  · refine ⟨le_max_left _ _, ?_, ?_⟩
    · rw [totalPages]
      rcases Nat.eq_zero_or_pos xs.length with h0 | h0
      · rw [h0]
        exact Nat.zero_le _
      · have hq1 : 1 ≤ (xs.length + size - 1) / size := by
          rw [Nat.le_div_iff_mul_le hs]
          omega
        rw [Nat.max_eq_right hq1]
        have hlt : xs.length + size - 1 < (xs.length + size - 1) / size * size + size :=
          Nat.lt_div_mul_add hs
        omega
    · intro p hp1 hp2
      rw [totalPages]
      have hq : (xs.length + size - 1) / size ≤ p := by
        rw [Nat.div_le_iff_le_mul_add_pred hs, Nat.mul_comm size p]
        omega
      omega
  · obtain ⟨m, rfl⟩ : ∃ m, idx = m + 1 := ⟨idx - 1, by omega⟩
    rw [pageSlice, List.take_drop, Nat.add_sub_cancel, Nat.succ_mul]

/-- C9 witness at the claim's instance: length 25, pageSize 10 gives 3
    pages; page 1 is rows [0,10) and page 3 is rows [20,25). -/
theorem C9_pagination_witness :
    ((0 : ℕ) < 10 ∧ (1 : ℕ) ≤ 3) ∧
    totalPages (List.range 25).length 10 = 3 ∧
    pageSlice (List.range 25) 10 1 = List.range 10 ∧
    pageSlice (List.range 25) 10 3 = [20, 21, 22, 23, 24] ∧
    ((1 ≤ totalPages (List.range 25).length 10 ∧
      (List.range 25).length ≤ totalPages (List.range 25).length 10 * 10 ∧
      ∀ p, 1 ≤ p → (List.range 25).length ≤ p * 10 → totalPages (List.range 25).length 10 ≤ p) ∧
      pageSlice (List.range 25) 10 3 =
        ((List.range 25).take (3 * 10)).drop ((3 - 1) * 10)) :=
  ⟨⟨by decide, by decide⟩, by decide, by decide, by decide,
    C9_pagination (List.range 25) 10 3 (by decide) (by decide)⟩

/-- C10: compute_renewable_share returns round(share, 2): an integer number
    of hundredths within 1/200 of the unrounded share, and it returns 0 for
    every aggregate whose (mutated-frame) total is ≤ 0 — including strictly
    negative totals, because the source guard is `total > 0`, not
    `total != 0`. -/
theorem C10_rounded_share (agg : DF) :
    (aggTotal agg ≤ 0 → (compute_renewable_share agg).1 = 0) ∧
    (∃ n : ℤ, (compute_renewable_share agg).1 = (n : ℚ) / 100) ∧
    |(compute_renewable_share agg).1 - shareRaw agg| ≤ 1 / 200 := by
  refine ⟨?_, ⟨bround (shareRaw agg * 100), rfl⟩, round2_close (shareRaw agg)⟩
  intro h
  have hs : shareRaw agg = 0 := by
    rw [shareRaw, if_neg (not_lt.mpr h)]
  show round2 (shareRaw agg) = 0
  rw [hs, round2, bround]
  norm_num

unseal Rat.add Rat.mul Rat.inv Rat.sub in
/-- C10 witness: an aggregate whose total is -5 yields share 0. -/
theorem C10_rounded_share_witness :
    aggTotal negAgg ≤ 0 ∧ (compute_renewable_share negAgg).1 = 0 :=
  ⟨by decide, (C10_rounded_share negAgg).1 (by decide)⟩

unseal Rat.add Rat.mul Rat.inv Rat.sub in
/-- C1: on the one-row table df0 (whose malformed generation cell coerces
    to 0) all three schema roles resolve, the overall fuel-mix share is the
    guarded value 0, but the pivot's renew_share_pct column divides the
    renewable sum by the zero total — 0/0, i.e. NaN (modelled as none) —
    at its single timestamp, so the per-timestamp series share is NOT
    always defined, contradicting the claim's never-NaN part. -/
theorem C1_pivot_share_undefined :
    (process_generation_df df0).2.2 = ⟨some "TradingDate", some "Fuel", some "Generation"⟩ ∧
    pivot_renew_share (process_generation_df df0).2.1 "TradingDate" "Fuel" "Generation" =
      [(20240101, none)] ∧
    (compute_renewable_share (process_generation_df df0).1).1 = 0 := by
  decide
